import Mathlib

/-!
Verification development for the `micro-python-mysql-interaction` backend.

The development shallowly embeds the two source modules:

* `backend/app.py` — JWT issuance/verification (`create_jwt`, `decode_jwt`),
  bearer-token extraction (`get_token_from_header`), the auth gate
  (`require_auth`), and the `register` / `me` handlers.
* `backend/mysql_helper.py` — the `MySqlHelper` class: scoped cursor management
  (`_get_cursor`), `execute_non_query`, `execute_many`, `table_exists`,
  `ensure_table`, `run_script`.

External collaborators (the PyJWT library's HMAC-signed wire format, the
werkzeug password hash, the MySQL store) are modelled by concrete executable
stand-ins: an injective serialisation plus a keyed hash for JWT, an injective
keyed function for the password hash, and a catalog-transition function for the
store's reaction to executed statements.  Python `str` operations are embedded
as functions over `String.data` with Python semantics.
-/

/-! ## Python string primitives -/

/-- Python `str.strip()` on a character list: drop leading and trailing
whitespace. -/
def pyStripChars (l : List Char) : List Char :=
  ((l.dropWhile Char.isWhitespace).reverse.dropWhile Char.isWhitespace).reverse

/-- Python `s.strip()`. -/
def pyStrip (s : String) : String := ⟨pyStripChars s.data⟩

/-- Python `s.lower()` (ASCII range, which is all the sources use). -/
def pyLower (s : String) : String := ⟨s.data.map Char.toLower⟩

/-- Python `s.startswith(pre)`. -/
def pyStartsWith (s pre : String) : Bool := pre.data.isPrefixOf s.data

/-- Python `s.endswith(suf)`. -/
def pyEndsWith (s suf : String) : Bool := suf.data.isSuffixOf s.data

/-- Python `s[n:]`. -/
def pyDrop (s : String) (n : Nat) : String := ⟨s.data.drop n⟩

/-- Normalisation applied to emails by `register` and `login`:
`(data.get("email") or "").strip().lower()`. -/
def normEmail (s : String) : String := pyLower (pyStrip s)

/-- Python `email.split("@")[0]`: the part before the first `'@'` (the whole
string when no `'@'` occurs, matching `split`). -/
def localPart (s : String) : String := ⟨s.data.takeWhile (fun c => c ≠ '@')⟩

/-! ## JWT model

`app.py` delegates to the external PyJWT library (`jwt.encode` / `jwt.decode`
with `HS256`).  We model the signed token as an injective decimal wire format
carrying `{uid, email, exp}` plus a keyed hash standing in for
HMAC-SHA256. -/

/-- Decimal digit character test (codes 48–57). -/
def isDig (c : Char) : Bool := 48 ≤ c.toNat && c.toNat ≤ 57

/-- Little-endian decimal digit characters of `n`; fuelled so the definition is
structural (the fuel `n` itself always suffices). -/
def digitCharsAux : Nat → Nat → List Char
  | 0, _ => []
  | fuel + 1, n => if n = 0 then [] else Char.ofNat (48 + n % 10) :: digitCharsAux fuel (n / 10)

/-- Little-endian decimal digit characters of `n` (empty for `0`). -/
def digitChars (n : Nat) : List Char := digitCharsAux n n

/-- Value of a little-endian run of decimal digit characters. -/
def ofDigitsLE : List Char → Nat
  | [] => 0
  | c :: r => (c.toNat - 48) + 10 * ofDigitsLE r

/-- The claims dictionary `{uid, email, exp}` carried by a token issued by this
app (`create_jwt` always adds `exp`). -/
structure Claims where
  uid : Nat
  email : String
  exp : Nat
  deriving DecidableEq

/-- The payload `{uid, email}` passed to `create_jwt` by `login`. -/
structure Payload where
  uid : Nat
  email : String
  deriving DecidableEq

/-- Keyed hash standing in for the external HMAC-SHA256 of PyJWT: a 32-bit
fold over the secret followed by the message. -/
def macHash (secret : String) (msg : List Char) : Nat :=
  (secret.data ++ msg).foldl (fun h c => (h * 31 + c.toNat) % 4294967296) 5381

/-- Serialised claim body: `uid . emailLength . emailChars . exp`
(little-endian decimal numbers; the email is length-prefixed so it may contain
any character). -/
def serializeClaims (c : Claims) : List Char :=
  digitChars c.uid ++ '.' :: (digitChars c.email.data.length ++ '.' ::
    (c.email.data ++ '.' :: digitChars c.exp))

/-- Signed token: body plus the keyed hash of the body. -/
def signToken (secret : String) (c : Claims) : List Char :=
  serializeClaims c ++ '.' :: digitChars (macHash secret (serializeClaims c))

/-- Token lifetime: `JWT_EXPIRE_HOURS = 24` in `app.py`. -/
def JWT_EXPIRE_HOURS : Nat := 24

/-- Embedding of `create_jwt` (`app.py` lines 35–38): extend the payload with
`exp = utcnow + 24h` (seconds) and sign.  `now` is the current UTC time in
seconds. -/
def create_jwt (secret : String) (now : Nat) (payload : Payload) : String :=
  ⟨signToken secret { uid := payload.uid, email := payload.email,
                      exp := now + JWT_EXPIRE_HOURS * 3600 }⟩

/-- Read a little-endian decimal run: its value and the unconsumed rest. -/
def readNum (l : List Char) : Nat × List Char :=
  (ofDigitsLE (l.takeWhile isDig), l.dropWhile isDig)

/-- Parse of the wire format (the deserialisation side of the external JWT
library): claims plus the transmitted signature, or `none` for a string that is
not a well-formed token. -/
def parseToken (l : List Char) : Option (Claims × Nat) :=
  match readNum l with
  | (uid, '.' :: r1) =>
    match readNum r1 with
    | (len, '.' :: r2) =>
      let em := r2.take len
      match r2.drop len with
      | '.' :: r3 =>
        match readNum r3 with
        | (exp, '.' :: r4) =>
          match readNum r4 with
          | (sig, []) => some ({ uid := uid, email := ⟨em⟩, exp := exp }, sig)
          | _ => none
        | _ => none
      | _ => none
    | _ => none
  | _ => none

/-- Embedding of `decode_jwt` (`app.py` lines 40–46): `jwt.decode` validates
shape, signature, then expiry; the wrapper catches `ExpiredSignatureError` and
`InvalidTokenError` and returns `None`, so the embedding is a total function
into `Option`.  Rejection is `exp ≤ now`. -/
def decode_jwt (secret : String) (now : Nat) (token : String) : Option Claims :=
  match parseToken token.data with
  | none => none
  | some (c, sig) =>
    if sig ≠ macHash secret (serializeClaims c) then none
    else if c.exp ≤ now then none
    else some c

/-! ## Flask layer: JSON payloads, the auth gate, and the handlers -/

/-- The JSON payload shapes produced by `jsonify` in `app.py`: strings,
numbers, and one- or two-field objects. -/
inductive Json where
  | jStr (s : String)
  | jNum (n : Nat)
  | jObj1 (k : String) (v : Json)
  | jObj2 (k1 : String) (v1 : Json) (k2 : String) (v2 : Json)
  deriving DecidableEq

/-- An HTTP response: status code and JSON body (`jsonify` defaults to 200). -/
structure HttpResponse where
  status : Nat
  body : Json
  deriving DecidableEq

/-- The `{"error": "unauthorized"}, 401` response of `require_auth`. -/
def unauthorizedResp : HttpResponse :=
  ⟨401, Json.jObj1 "error" (Json.jStr "unauthorized")⟩

/-- Result of running a gated route: the response, whether `decode_jwt` was
invoked, and whether the wrapped handler body ran. -/
structure GateResult where
  response : HttpResponse
  verifierCalled : Bool
  handlerCalled : Bool
  deriving DecidableEq

/-- Embedding of `get_token_from_header` (`app.py` lines 48–52):
`request.headers.get("Authorization", "")`, then
`if auth.lower().startswith("bearer "): return auth[7:]` else `None`. -/
def get_token_from_header (authHeader : Option String) : Option String :=
  let auth := authHeader.getD ""
  if pyStartsWith (pyLower auth) "bearer " then some (pyDrop auth 7) else none

/-- Embedding of the `require_auth` decorator (`app.py` lines 54–65):
`token = get_token_from_header()`, `data = decode_jwt(token) if token else
None` (`None` and the empty string are both falsy), `if not data: 401`, else
`g.user = data` and the handler runs on the request-scoped claims. -/
def require_auth (fn : Claims → HttpResponse) (secret : String) (now : Nat)
    (authHeader : Option String) : GateResult :=
  match get_token_from_header authHeader with
  | none => ⟨unauthorizedResp, false, false⟩
  | some token =>
    if token = "" then ⟨unauthorizedResp, false, false⟩
    else
      match decode_jwt secret now token with
      | none => ⟨unauthorizedResp, true, false⟩
      | some data => ⟨fn data, true, true⟩

/-- Embedding of the `me` handler body (`app.py` lines 113–116):
`jsonify({"uid": g.user["uid"], "email": g.user["email"]})`. -/
def me (user : Claims) : HttpResponse :=
  ⟨200, Json.jObj2 "uid" (Json.jNum user.uid) "email" (Json.jStr user.email)⟩

/-- The `/api/me` route: `me` wrapped by `require_auth`. -/
def api_me (secret : String) (now : Nat) (authHeader : Option String) : GateResult :=
  require_auth me secret now authHeader

/-! ## The `register` handler and the users table -/

/-- A row of the `users` table as `register` writes it. -/
structure UserRow where
  id : Nat
  username : String
  email : String
  password_hash : String
  deriving DecidableEq

/-- The users table plus the auto-increment counter of the store. -/
structure UsersDb where
  rows : List UserRow
  nextId : Nat
  deriving DecidableEq

/-- The JSON body of a register request; absent keys model
`data.get(k) -> None`. -/
structure RegisterBody where
  email : Option String
  password : Option String
  username : Option String
  deriving DecidableEq

/-- Stand-in for werkzeug's
`generate_password_hash(p, method="pbkdf2:sha256", salt_length=16)`:
an injective keyed function of the password (the real salted hash is an
external collaborator). -/
def generate_password_hash (password : String) : String :=
  ⟨'p' :: 'b' :: 'k' :: 'd' :: 'f' :: '2' :: '$' :: password.data⟩

/-- Embedding of `register` (`app.py` lines 74–96).  Returns the response and
the new database state.  Line by line: normalise the email
(`strip` then `lower`); default the password to `""`; take the supplied
username when truthy, else the email's local part (the whole email when it has
no `'@'`), then `strip` it; 400 when email or password is empty; 409 when a
row with that email exists (`SELECT id FROM users WHERE email=%s`); otherwise
hash the password and insert the row. -/
def register (db : UsersDb) (body : RegisterBody) : HttpResponse × UsersDb :=
  let email := pyLower (pyStrip (body.email.getD ""))
  let password := body.password.getD ""
  let uRaw := body.username.getD ""
  let username := pyStrip (if uRaw ≠ "" then uRaw
    else if ('@' ∈ email.data : Bool) then localPart email else email)
  if email = "" ∨ password = "" then
    (⟨400, Json.jObj1 "error" (Json.jStr "email and password required")⟩, db)
  else if db.rows.filter (fun r => r.email = email) ≠ [] then
    (⟨409, Json.jObj1 "error" (Json.jStr "email already exists")⟩, db)
  else
    let pwd_hash := generate_password_hash password
    (⟨200, Json.jObj1 "message" (Json.jStr "ok")⟩,
     ⟨db.rows ++ [⟨db.nextId, username, email, pwd_hash⟩], db.nextId + 1⟩)

/-! ## `MySqlHelper` model

State: whether the lazily-created connection is open, and the store's table
catalog (the current database, as seen through `information_schema`).  Every
operation additionally returns the ordered trace of store-level events it
performed.  The reaction of the external MySQL engine to an executed statement
is a catalog-transition parameter `sem : String → List String → List String`
(statement text and old catalog to new catalog). -/

/-- Store-level events emitted by the helper. -/
inductive DbEv where
  | evConnect
  | evCursorOpen
  | evCursorClose
  | evCommit
  | evRollback
  | evExec (sql : String)
  | evQuery (sql : String) (param : String)
  | evExecMany (sql : String) (paramCount : Nat)
  deriving DecidableEq, BEq

/-- Helper state: lazily-created connection flag plus the store catalog. -/
structure HelperState where
  connOpen : Bool
  tables : List String
  deriving DecidableEq

/-- Embedding of `_get_connection` (`mysql_helper.py` lines 97–122): reuse the
connection while open, else reconnect. -/
def get_connection (st : HelperState) : HelperState × List DbEv :=
  if st.connOpen then (st, []) else ({ st with connOpen := true }, [DbEv.evConnect])

/-- Embedding of the `_get_cursor` context manager (`mysql_helper.py` lines
124–149) as a function of the scope's outcomes: `cursorFail` is the exception
raised by `conn.cursor()` if any (leaving the local `cursor` as `None`, so the
`finally` block skips `close`), and `body` is the outcome of the managed
block.  On body success the connection commits; on any exception it rolls back
and re-raises; the `finally` block closes the cursor whenever one was
opened. -/
def get_cursor_scope (cursorFail : Option String) (body : Except String Nat) :
    Except String Nat × List DbEv :=
  match cursorFail with
  | some e => (Except.error e, [DbEv.evRollback])
  | none =>
    match body with
    | Except.ok a => (Except.ok a, [DbEv.evCursorOpen, DbEv.evCommit, DbEv.evCursorClose])
    | Except.error e =>
      (Except.error e, [DbEv.evCursorOpen, DbEv.evRollback, DbEv.evCursorClose])

/-- Embedding of `execute_non_query` (`mysql_helper.py` lines 239–267), on its
success path: acquire the connection, open a cursor, execute the statement
(the store applies `sem`), commit, close the cursor.  The affected-row count
is the driver's; the claims never observe it, so it is modelled as 1. -/
def execute_non_query (sem : String → List String → List String)
    (st : HelperState) (sql : String) : Nat × HelperState × List DbEv :=
  let p := get_connection st
  let st2 : HelperState := { p.1 with tables := sem sql p.1.tables }
  (1, st2, p.2 ++ [DbEv.evCursorOpen, DbEv.evExec sql, DbEv.evCommit, DbEv.evCursorClose])

/-- Embedding of `execute_many` (`mysql_helper.py` lines 269–304): return 0
immediately on an empty parameter list; otherwise run `executemany` inside one
cursor scope, the statement applying once per parameter set. -/
def execute_many (sem : String → List String → List String)
    (st : HelperState) (sql : String) (paramList : List (List String)) :
    Nat × HelperState × List DbEv :=
  if paramList.isEmpty then (0, st, [])
  else
    let p := get_connection st
    let st2 : HelperState :=
      { p.1 with tables := paramList.foldl (fun t _ => sem sql t) p.1.tables }
    (paramList.length, st2,
     p.2 ++ [DbEv.evCursorOpen, DbEv.evExecMany sql paramList.length,
             DbEv.evCommit, DbEv.evCursorClose])

/-- The catalog query text of `table_exists`. -/
def tableExistsSql : String :=
  "SELECT 1 FROM information_schema.TABLES WHERE TABLE_SCHEMA = COALESCE(%s, DATABASE()) AND TABLE_NAME = %s LIMIT 1"

/-- Embedding of `table_exists` (`mysql_helper.py` lines 160–175): run the
`information_schema` lookup in a cursor scope; a row comes back exactly when
the table is in the current catalog (the schema argument defaults to the
connection's database, which is what the catalog models). -/
def table_exists (st : HelperState) (tableName : String) :
    Bool × HelperState × List DbEv :=
  let p := get_connection st
  (p.1.tables.contains tableName, p.1,
   p.2 ++ [DbEv.evCursorOpen, DbEv.evQuery tableExistsSql tableName,
           DbEv.evCommit, DbEv.evCursorClose])

/-- Embedding of `ensure_table` (`mysql_helper.py` lines 177–187):
`if table_name:` (falsy for `None` and for the empty string) check existence
first and return without executing when present; otherwise execute the
creation statement. -/
def ensure_table (sem : String → List String → List String)
    (st : HelperState) (createTableSql : String) (tableName : Option String) :
    HelperState × List DbEv :=
  if tableName.getD "" ≠ "" then
    let q := table_exists st (tableName.getD "")
    if q.1 then (q.2.1, q.2.2)
    else
      let e := execute_non_query sem q.2.1 createTableSql
      (e.2.1, q.2.2 ++ e.2.2)
  else
    let e := execute_non_query sem st createTableSql
    (e.2.1, e.2.2)

/-! ### `run_script` statement splitting -/

/-- A line is skipped by `run_script` when its stripped form is empty or
starts with `--` or `#`. -/
def skipLine (line : String) : Bool :=
  pyStrip line = "" || pyStartsWith (pyStrip line) "--" || pyStartsWith (pyStrip line) "#"

/-- The statement-accumulation loop of `run_script` (`mysql_helper.py` lines
195–206) over the script's lines, carrying the current `buff`: skipped lines
are dropped, other lines join `buff`, and a line whose stripped form ends with
`;` flushes `buff` as one statement; a non-empty trailing `buff` becomes a
final statement. -/
def collectGo : List String → List String → List (List String)
  | [], buff => if buff.isEmpty then [] else [buff]
  | line :: rest, buff =>
    if skipLine line then collectGo rest buff
    else
      let buff2 := buff ++ [line]
      if pyEndsWith (pyStrip line) ";" then buff2 :: collectGo rest []
      else collectGo rest buff2

/-- Python `str.splitlines` restricted to `'\n'` boundaries (the only
terminator the claims exercise): no trailing empty line for a trailing
newline, and `[]` for the empty string. -/
def splitLinesGo : List Char → List Char → List (List Char)
  | [], acc => if acc.isEmpty then [] else [acc]
  | '\n' :: rest, acc => acc :: splitLinesGo rest []
  | c :: rest, acc => splitLinesGo rest (acc ++ [c])

/-- Python `sql_text.splitlines()`. -/
def pySplitLines (s : String) : List String :=
  (splitLinesGo s.data []).map (fun l => ⟨l⟩)

/-- The statements `run_script` extracts from a script: each flushed `buff`
joined with newlines. -/
def run_script_statements (sqlText : String) : List String :=
  (collectGo (pySplitLines sqlText) []).map (fun ls => String.intercalate "\n" ls)

/-- Execute a list of statements in order through `execute_non_query`. -/
def runStmtList (sem : String → List String → List String)
    (st : HelperState) : List String → HelperState × List DbEv
  | [] => (st, [])
  | s :: rest =>
    let e := execute_non_query sem st s
    let r := runStmtList sem e.2.1 rest
    (r.1, e.2.2 ++ r.2)

/-- Embedding of `run_script` (`mysql_helper.py` lines 189–208): split the
script into statements and execute each in order of appearance. -/
def run_script (sem : String → List String → List String)
    (st : HelperState) (sqlText : String) : HelperState × List DbEv :=
  runStmtList sem st (run_script_statements sqlText)

/-- The statements a trace executed, in order. -/
def execTrace (tr : List DbEv) : List String :=
  tr.filterMap (fun e => match e with | DbEv.evExec s => some s | _ => none)

/-! ## Lemmas: decimal digit runs and the token wire format -/

lemma digit_char_spec (d : Nat) (hd : d < 10) :
    isDig (Char.ofNat (48 + d)) = true ∧ (Char.ofNat (48 + d)).toNat = 48 + d := by
  interval_cases d <;> exact ⟨by decide, by decide⟩

lemma all_isDig_digitCharsAux :
    ∀ fuel n, ∀ c ∈ digitCharsAux fuel n, isDig c = true := by
  intro fuel
  induction fuel with
  | zero => intro n c hc; simp [digitCharsAux] at hc
  | succ fuel ih =>
    intro n c hc
    by_cases hn : n = 0
    · simp [digitCharsAux, hn] at hc
    · simp only [digitCharsAux, if_neg hn, List.mem_cons] at hc
      rcases hc with hc | hc
      · subst hc
        exact (digit_char_spec (n % 10) (Nat.mod_lt _ (by norm_num))).1
      · exact ih (n / 10) c hc

lemma all_isDig_digitChars (n : Nat) : ∀ c ∈ digitChars n, isDig c = true :=
  all_isDig_digitCharsAux n n

lemma takeWhile_app_all (p : Char → Bool) :
    ∀ l r : List Char, (∀ c ∈ l, p c = true) →
      (l ++ r).takeWhile p = l ++ r.takeWhile p ∧
      (l ++ r).dropWhile p = r.dropWhile p := by
  intro l
  induction l with
  | nil => intro r _; simp
  | cons a l ih =>
    intro r h
    have pa : p a = true := h a (by simp)
    have ihl := ih r (fun c hc => h c (by simp [hc]))
    simp [List.takeWhile_cons, List.dropWhile_cons, pa, ihl.1, ihl.2]

lemma ofDigitsLE_digitCharsAux :
    ∀ fuel n, n ≤ fuel → ofDigitsLE (digitCharsAux fuel n) = n := by
  intro fuel
  induction fuel with
  | zero =>
    intro n hn
    interval_cases n
    simp [digitCharsAux, ofDigitsLE]
  | succ fuel ih =>
    intro n hn
    by_cases hz : n = 0
    · simp [digitCharsAux, hz, ofDigitsLE]
    · have hlt : n / 10 < n := Nat.div_lt_self (Nat.pos_of_ne_zero hz) (by norm_num)
      have hfuel : n / 10 ≤ fuel := by omega
      have hchar := (digit_char_spec (n % 10) (Nat.mod_lt _ (by norm_num))).2
      simp only [digitCharsAux, if_neg hz, ofDigitsLE, ih (n / 10) hfuel, hchar]
      omega

lemma ofDigitsLE_digitChars (n : Nat) : ofDigitsLE (digitChars n) = n :=
  ofDigitsLE_digitCharsAux n n (Nat.le_refl n)

lemma readNum_digits_append (n : Nat) (r : List Char) :
    readNum (digitChars n ++ '.' :: r) = (n, '.' :: r) := by
  have h := takeWhile_app_all isDig (digitChars n) ('.' :: r) (all_isDig_digitChars n)
  have hdot : isDig '.' = false := by decide
  simp only [readNum, h.1, h.2, List.takeWhile_cons, List.dropWhile_cons, hdot]
  simp [ofDigitsLE_digitChars]

lemma readNum_digits (n : Nat) : readNum (digitChars n) = (n, []) := by
  have h := takeWhile_app_all isDig (digitChars n) [] (all_isDig_digitChars n)
  simp only [List.append_nil] at h
  simp [readNum, h.1, h.2, ofDigitsLE_digitChars]

/-- Parsing inverts signing: the wire format round-trips and carries the
transmitted signature. -/
lemma parseToken_signToken (secret : String) (c : Claims) :
    parseToken (signToken secret c) =
      some (c, macHash secret (serializeClaims c)) := by
  have hshape : signToken secret c =
      digitChars c.uid ++ '.' :: (digitChars c.email.data.length ++ '.' ::
        (c.email.data ++ '.' :: (digitChars c.exp ++ '.' ::
          digitChars (macHash secret (serializeClaims c))))) := by
    simp [signToken, serializeClaims, List.append_assoc]
  rw [parseToken, hshape, readNum_digits_append]
  simp only [readNum_digits_append]
  have htake : (c.email.data ++ '.' :: (digitChars c.exp ++ '.' ::
      digitChars (macHash secret (serializeClaims c)))).take c.email.data.length =
      c.email.data := List.take_left _ _
  have hdrop : (c.email.data ++ '.' :: (digitChars c.exp ++ '.' ::
      digitChars (macHash secret (serializeClaims c)))).drop c.email.data.length =
      '.' :: (digitChars c.exp ++ '.' ::
        digitChars (macHash secret (serializeClaims c))) := List.drop_left _ _
  simp only [htake, hdrop, readNum_digits_append, readNum_digits]

/-! ## Lemmas: bearer-header extraction -/

lemma data_append (a b : String) : (a ++ b).data = a.data ++ b.data := rfl

lemma isPrefixOf_append_self :
    ∀ l r : List Char, l.isPrefixOf (l ++ r) = true := by
  intro l r
  induction l with
  | nil => simp [List.isPrefixOf]
  | cons a l ih => simp [List.isPrefixOf, ih]

/-- Any token sent as `Bearer <token>` is extracted verbatim. -/
lemma get_token_bearer (t : String) :
    get_token_from_header (some ("Bearer " ++ t)) = some t := by
  have hmap : "Bearer ".data.map Char.toLower = "bearer ".data := by decide
  have hlow : (pyLower ("Bearer " ++ t)).data = "bearer ".data ++ t.data.map Char.toLower := by
    show ("Bearer " ++ t).data.map Char.toLower = "bearer ".data ++ t.data.map Char.toLower
    rw [data_append, List.map_append, hmap]
  have hpre : pyStartsWith (pyLower ("Bearer " ++ t)) "bearer " = true := by
    simp [pyStartsWith, hlow, isPrefixOf_append_self]
  have hdrop : pyDrop ("Bearer " ++ t) 7 = t := by
    have : ("Bearer " ++ t).data.drop 7 = t.data := by
      have h7 : ("Bearer " : String).data.length = 7 := by decide
      calc ("Bearer " ++ t).data.drop 7
          = ("Bearer ".data ++ t.data).drop ("Bearer ".data.length) := by
            rw [data_append, h7]
        _ = t.data := List.drop_left _ _
    simp [pyDrop, this]
  simp [get_token_from_header, hpre, hdrop]

lemma signToken_ne_nil (secret : String) (c : Claims) : signToken secret c ≠ [] := by
  intro h
  simp [signToken, serializeClaims] at h

/-! ## C1: issue / verify round-trip and `/api/me` -/

/-- C1: a token issued by `create_jwt` for `{uid, email}` is accepted by
`decode_jwt` at any time before its expiry and yields exactly the original
`uid` and `email` (plus the attached `exp`); consequently `/api/me` with that
bearer token answers 200 with exactly `{uid, email}`, the verifier and the
handler both having run. -/
theorem jwt_roundtrip_api_me (secret : String) (uid : Nat) (email : String)
    (t0 t1 : Nat) (h : t1 < t0 + JWT_EXPIRE_HOURS * 3600) :
    decode_jwt secret t1 (create_jwt secret t0 ⟨uid, email⟩) =
      some ⟨uid, email, t0 + JWT_EXPIRE_HOURS * 3600⟩ ∧
    api_me secret t1 (some ("Bearer " ++ create_jwt secret t0 ⟨uid, email⟩)) =
      ⟨⟨200, Json.jObj2 "uid" (Json.jNum uid) "email" (Json.jStr email)⟩, true, true⟩ := by
  have hc : create_jwt secret t0 ⟨uid, email⟩ =
      ⟨signToken secret ⟨uid, email, t0 + JWT_EXPIRE_HOURS * 3600⟩⟩ := rfl
  have hdec : decode_jwt secret t1 (create_jwt secret t0 ⟨uid, email⟩) =
      some ⟨uid, email, t0 + JWT_EXPIRE_HOURS * 3600⟩ := by
    rw [hc]
    show (match parseToken (signToken secret ⟨uid, email, t0 + JWT_EXPIRE_HOURS * 3600⟩) with
      | none => none
      | some (c, sig) =>
        if sig ≠ macHash secret (serializeClaims c) then none
        else if c.exp ≤ t1 then none
        else some c) = some ⟨uid, email, t0 + JWT_EXPIRE_HOURS * 3600⟩
    rw [parseToken_signToken]
    simp only [ne_eq, not_true_eq_false, if_false]
    rw [if_neg (by omega : ¬ (t0 + JWT_EXPIRE_HOURS * 3600 ≤ t1))]
  refine ⟨hdec, ?_⟩
  have htok : get_token_from_header
      (some ("Bearer " ++ create_jwt secret t0 ⟨uid, email⟩)) =
      some (create_jwt secret t0 ⟨uid, email⟩) := get_token_bearer _
  have hne : create_jwt secret t0 ⟨uid, email⟩ ≠ "" := by
    rw [hc]
    intro hmk
    exact signToken_ne_nil secret _ (congrArg String.data hmk)
  simp [api_me, require_auth, htok, hne, hdec, me]

theorem jwt_roundtrip_api_me_witness :
    decode_jwt "s" 1 (create_jwt "s" 0 ⟨7, "a@b.c"⟩) =
      some ⟨7, "a@b.c", 0 + JWT_EXPIRE_HOURS * 3600⟩ ∧
    api_me "s" 1 (some ("Bearer " ++ create_jwt "s" 0 ⟨7, "a@b.c"⟩)) =
      ⟨⟨200, Json.jObj2 "uid" (Json.jNum 7) "email" (Json.jStr "a@b.c")⟩, true, true⟩ :=
  jwt_roundtrip_api_me "s" 7 "a@b.c" 0 1 (by decide)

/-! ## C3: `decode_jwt` is total and validates signature then expiry -/

/-- C3: `decode_jwt` is a total function into `Option` (the source catches
`ExpiredSignatureError` and `InvalidTokenError`, the exceptions `jwt.decode`
raises): for every input string it returns `none` on an unparseable token, on
a signature mismatch, and — even with a correct signature — on an expiry not
in the future; it returns the embedded claims exactly when the token parses,
the signature matches, and the expiry is in the future. -/
theorem decode_jwt_total_spec (secret : String) (now : Nat) (s : String) :
    (parseToken s.data = none → decode_jwt secret now s = none) ∧
    (∀ c sig, parseToken s.data = some (c, sig) →
      sig ≠ macHash secret (serializeClaims c) → decode_jwt secret now s = none) ∧
    (∀ c sig, parseToken s.data = some (c, sig) →
      sig = macHash secret (serializeClaims c) → c.exp ≤ now →
      decode_jwt secret now s = none) ∧
    (∀ c sig, parseToken s.data = some (c, sig) →
      sig = macHash secret (serializeClaims c) → now < c.exp →
      decode_jwt secret now s = some c) ∧
    (∀ c, decode_jwt secret now s = some c →
      now < c.exp ∧ parseToken s.data = some (c, macHash secret (serializeClaims c))) := by
  refine ⟨?_, ?_, ?_, ?_, ?_⟩
  · intro hp; simp [decode_jwt, hp]
  · intro c sig hp hsig; simp [decode_jwt, hp, hsig]
  · intro c sig hp hsig hexp
    simp [decode_jwt, hp, hsig, hexp]
  · intro c sig hp hsig hexp
    simp [decode_jwt, hp, hsig, Nat.not_le_of_lt hexp]
  · intro c hdec
    cases hp : parseToken s.data with
    | none => simp [decode_jwt, hp] at hdec
    | some p =>
      obtain ⟨c0, sig⟩ := p
      by_cases hsig : sig = macHash secret (serializeClaims c0)
      · by_cases hexp : c0.exp ≤ now
        · simp [decode_jwt, hp, hsig, hexp] at hdec
        · have : c0 = c := by simpa [decode_jwt, hp, hsig, hexp] using hdec
          subst this
          subst hsig
          exact ⟨Nat.lt_of_not_le hexp, rfl⟩
      · simp [decode_jwt, hp, hsig] at hdec

theorem decode_jwt_total_spec_witness :
    decode_jwt "s" 86400 (create_jwt "s" 0 ⟨7, "a@b.c"⟩) = none :=
  (decode_jwt_total_spec "s" 86400 (create_jwt "s" 0 ⟨7, "a@b.c"⟩)).2.2.1
    ⟨7, "a@b.c", 86400⟩
    (macHash "s" (serializeClaims ⟨7, "a@b.c", 86400⟩))
    (by decide) rfl (by decide)

/-! ## C4: the auth gate short-circuits before the handler -/

/-- C4: when the request carries no `Authorization` header, or a header whose
lowercased value does not start with `bearer `, or a bearer token that fails
verification, `require_auth` answers 401 and the wrapped handler never runs;
when verification succeeds the handler runs on the verified claims. -/
theorem require_auth_gate_spec (secret : String) (now : Nat)
    (fn : Claims → HttpResponse) (header : Option String) :
    (header = none → require_auth fn secret now header = ⟨unauthorizedResp, false, false⟩) ∧
    (∀ a, header = some a → pyStartsWith (pyLower a) "bearer " = false →
      require_auth fn secret now header = ⟨unauthorizedResp, false, false⟩) ∧
    (∀ t, get_token_from_header header = some t → t ≠ "" →
      decode_jwt secret now t = none →
      require_auth fn secret now header = ⟨unauthorizedResp, true, false⟩) ∧
    (∀ t c, get_token_from_header header = some t → t ≠ "" →
      decode_jwt secret now t = some c →
      require_auth fn secret now header = ⟨fn c, true, true⟩) := by
  refine ⟨?_, ?_, ?_, ?_⟩
  · intro hh; subst hh
    simp [require_auth, get_token_from_header, pyStartsWith, pyLower]
  · intro a hh hpre; subst hh
    simp [require_auth, get_token_from_header, hpre]
  · intro t htok hne hdec
    simp [require_auth, htok, hne, hdec]
  · intro t c htok hne hdec
    simp [require_auth, htok, hne, hdec]

theorem require_auth_gate_spec_witness :
    require_auth me "s" 0 none = ⟨unauthorizedResp, false, false⟩ ∧
    require_auth me "s" 0 (some "Basic xyz") = ⟨unauthorizedResp, false, false⟩ ∧
    require_auth me "s" 0 (some ("Bearer " ++ create_jwt "s" 0 ⟨7, "a@b.c"⟩)) =
      ⟨me ⟨7, "a@b.c", 86400⟩, true, true⟩ :=
  ⟨(require_auth_gate_spec "s" 0 me none).1 rfl,
   (require_auth_gate_spec "s" 0 me (some "Basic xyz")).2.1 "Basic xyz" rfl (by decide),
   (require_auth_gate_spec "s" 0 me
      (some ("Bearer " ++ create_jwt "s" 0 ⟨7, "a@b.c"⟩))).2.2.2
     (create_jwt "s" 0 ⟨7, "a@b.c"⟩) ⟨7, "a@b.c", 86400⟩
     (get_token_bearer _) (by decide) (by decide)⟩

/-! ## C10: bearer-scheme matching and empty tokens -/

/-- C10: the extraction matches the scheme case-insensitively — whenever the
lowercased header starts with `bearer `, the remainder after the first seven
characters is the token — and otherwise extracts nothing; the gate answers 401
without invoking `decode_jwt` both when extraction fails and when the
extracted remainder is empty. -/
theorem bearer_extraction_spec (a : String) :
    (pyStartsWith (pyLower a) "bearer " = true →
      get_token_from_header (some a) = some (pyDrop a 7)) ∧
    (pyStartsWith (pyLower a) "bearer " = false →
      get_token_from_header (some a) = none) ∧
    (∀ secret now fn, get_token_from_header (some a) = some "" →
      require_auth fn secret now (some a) = ⟨unauthorizedResp, false, false⟩) ∧
    (∀ secret now fn, get_token_from_header (some a) = none →
      require_auth fn secret now (some a) = ⟨unauthorizedResp, false, false⟩) := by
  refine ⟨?_, ?_, ?_, ?_⟩
  · intro hpre; simp [get_token_from_header, hpre]
  · intro hpre; simp [get_token_from_header, hpre]
  · intro secret now fn htok; simp [require_auth, htok]
  · intro secret now fn htok; simp [require_auth, htok]

/-! ## Lemmas: the `register` handler -/

/-- Successful registration: valid fields and a fresh normalised email insert
exactly one row and acknowledge with `{"message": "ok"}`. -/
lemma register_success (db : UsersDb) (e p : String) (u : Option String)
    (hne : normEmail e ≠ "") (hp : p ≠ "")
    (hfresh : db.rows.filter (fun r => r.email = normEmail e) = []) :
    register db ⟨some e, some p, u⟩ =
      (⟨200, Json.jObj1 "message" (Json.jStr "ok")⟩,
       ⟨db.rows ++ [⟨db.nextId,
          pyStrip (if (u.getD "") ≠ "" then u.getD ""
            else if ('@' ∈ (normEmail e).data : Bool) then localPart (normEmail e)
            else normEmail e),
          normEmail e, generate_password_hash p⟩],
        db.nextId + 1⟩) := by
  have hcond1 : ¬(pyLower (pyStrip e) = "" ∨ p = "") := fun h => h.elim hne hp
  have hcond2 : ¬(db.rows.filter (fun r => r.email = pyLower (pyStrip e)) ≠ []) :=
    fun hh => hh hfresh
  simp only [register, Option.getD_some, if_neg hcond1, if_neg hcond2]
  rfl

/-- Registration against an already-present normalised email: 409 and an
unchanged database. -/
lemma register_conflict (db : UsersDb) (e p : String) (u : Option String)
    (hne : normEmail e ≠ "") (hp : p ≠ "")
    (hdup : db.rows.filter (fun r => r.email = normEmail e) ≠ []) :
    register db ⟨some e, some p, u⟩ =
      (⟨409, Json.jObj1 "error" (Json.jStr "email already exists")⟩, db) := by
  have hcond1 : ¬(pyLower (pyStrip e) = "" ∨ p = "") := fun h => h.elim hne hp
  have hdup2 : db.rows.filter (fun r => r.email = pyLower (pyStrip e)) ≠ [] := hdup
  simp only [register, Option.getD_some, if_neg hcond1]
  rw [if_pos hdup2]

/-! ## C2: duplicate registration up to normalisation -/

/-- C2: two register requests whose raw emails agree after trim-then-lowercase
normalisation — whatever their casing or whitespace — succeed once with
`{"message": "ok"}` and conflict with 409 the second time, leaving the table
unchanged by the second call with exactly one row for that normalised
email. -/
theorem register_duplicate_conflict (db : UsersDb) (e1 e2 p1 p2 : String)
    (u1 u2 : Option String)
    (hnorm : normEmail e1 = normEmail e2) (hne : normEmail e1 ≠ "")
    (hp1 : p1 ≠ "") (hp2 : p2 ≠ "")
    (hfresh : db.rows.filter (fun r => r.email = normEmail e1) = []) :
    (register db ⟨some e1, some p1, u1⟩).1 =
      ⟨200, Json.jObj1 "message" (Json.jStr "ok")⟩ ∧
    (register (register db ⟨some e1, some p1, u1⟩).2 ⟨some e2, some p2, u2⟩).1 =
      ⟨409, Json.jObj1 "error" (Json.jStr "email already exists")⟩ ∧
    (register (register db ⟨some e1, some p1, u1⟩).2 ⟨some e2, some p2, u2⟩).2 =
      (register db ⟨some e1, some p1, u1⟩).2 ∧
    ((register db ⟨some e1, some p1, u1⟩).2.rows.filter
      (fun r => r.email = normEmail e1)).length = 1 := by
  have h1 := register_success db e1 p1 u1 hne hp1 hfresh
  have hne2 : normEmail e2 ≠ "" := hnorm ▸ hne
  have hrow : ((register db ⟨some e1, some p1, u1⟩).2.rows.filter
      (fun r => r.email = normEmail e1)) =
      [⟨db.nextId,
        pyStrip (if (u1.getD "") ≠ "" then u1.getD ""
          else if ('@' ∈ (normEmail e1).data : Bool) then localPart (normEmail e1)
          else normEmail e1),
        normEmail e1, generate_password_hash p1⟩] := by
    rw [h1]
    simp [List.filter_append, hfresh]
  have hdup : (register db ⟨some e1, some p1, u1⟩).2.rows.filter
      (fun r => r.email = normEmail e2) ≠ [] := by
    rw [← hnorm, hrow]
    simp
  have h2 := register_conflict (register db ⟨some e1, some p1, u1⟩).2 e2 p2 u2
    hne2 hp2 hdup
  refine ⟨by rw [h1], by rw [h2], by rw [h2], by rw [hrow]; rfl⟩

theorem register_duplicate_conflict_witness :
    (register ⟨[], 1⟩ ⟨some " A@B.com ", some "pw", none⟩).1 =
      ⟨200, Json.jObj1 "message" (Json.jStr "ok")⟩ ∧
    (register (register ⟨[], 1⟩ ⟨some " A@B.com ", some "pw", none⟩).2
      ⟨some "a@b.com", some "pw2", some "Bob"⟩).1 =
      ⟨409, Json.jObj1 "error" (Json.jStr "email already exists")⟩ ∧
    (register (register ⟨[], 1⟩ ⟨some " A@B.com ", some "pw", none⟩).2
      ⟨some "a@b.com", some "pw2", some "Bob"⟩).2 =
      (register ⟨[], 1⟩ ⟨some " A@B.com ", some "pw", none⟩).2 ∧
    ((register ⟨[], 1⟩ ⟨some " A@B.com ", some "pw", none⟩).2.rows.filter
      (fun r => r.email = normEmail " A@B.com ")).length = 1 :=
  register_duplicate_conflict ⟨[], 1⟩ " A@B.com " "a@b.com" "pw" "pw2" none (some "Bob")
    (by decide) (by decide) (by decide) (by decide) (by decide)

/-! ## C9: the default display name is the stripped local part -/

/-- C9 counterexample: with email `"ab @c.com"` (no username supplied) the
stored display name is `"ab"`, while the local part of the normalised email —
the substring before the first `'@'` — is `"ab "`; the stored name is the
local part additionally stripped, not the local part itself. -/
theorem register_localpart_counterexample :
    ((register ⟨[], 1⟩ ⟨some "ab @c.com", some "p", none⟩).2.rows.map
      (fun r => r.username)) = ["ab"] ∧
    localPart (normEmail "ab @c.com") = "ab " ∧
    ("ab" : String) ≠ "ab " := by decide

lemma takeWhile_eq_self_of_all (p : Char → Bool) (l : List Char)
    (h : ∀ c ∈ l, p c = true) : l.takeWhile p = l := by
  have := (takeWhile_app_all p l [] h).1
  simpa using this

/-- C9 amended: for a register request with email and password but no
username, the stored display name is the email's local part — the substring of
the normalised email before the first `'@'` (the whole email when it has no
`'@'`) — additionally stripped of surrounding whitespace. -/
theorem register_default_username_stripped (db : UsersDb) (e p : String)
    (hne : normEmail e ≠ "") (hp : p ≠ "")
    (hfresh : db.rows.filter (fun r => r.email = normEmail e) = []) :
    (register db ⟨some e, some p, none⟩).2.rows =
      db.rows ++ [⟨db.nextId, pyStrip (localPart (normEmail e)), normEmail e,
                   generate_password_hash p⟩] := by
  rw [register_success db e p none hne hp hfresh]
  by_cases hat : '@' ∈ (normEmail e).data
  · simp [hat]
  · have hall : ∀ c ∈ (normEmail e).data, (decide (c ≠ '@')) = true := by
      intro c hc
      simp only [decide_eq_true_eq]
      intro heq
      exact hat (heq ▸ hc)
    have : localPart (normEmail e) = normEmail e := by
      simp only [localPart]
      rw [takeWhile_eq_self_of_all _ _ hall]
    simp [hat, this]

theorem register_default_username_stripped_witness :
    (register ⟨[], 1⟩ ⟨some " X y@B.com ", some "pw", none⟩).2.rows =
      [⟨1, pyStrip (localPart (normEmail " X y@B.com ")), normEmail " X y@B.com ",
        generate_password_hash "pw"⟩] :=
  register_default_username_stripped ⟨[], 1⟩ " X y@B.com " "pw"
    (by decide) (by decide) (by decide)

theorem bearer_extraction_spec_witness :
    get_token_from_header (some "BEARER x") = some (pyDrop "BEARER x" 7) ∧
    require_auth me "s" 0 (some "Bearer ") = ⟨unauthorizedResp, false, false⟩ ∧
    require_auth me "s" 0 (some "Token abc") = ⟨unauthorizedResp, false, false⟩ :=
  ⟨(bearer_extraction_spec "BEARER x").1 (by decide),
   (bearer_extraction_spec "Bearer ").2.2.1 "s" 0 me (by decide),
   (bearer_extraction_spec "Token abc").2.2.2 "s" 0 me (by decide)⟩

/-! ## C5: the cursor scope balances open/close and commits or rolls back once -/

/-- C5: in every run of the `_get_cursor` scope, cursor opens equal cursor
closes (the cursor opened in the scope is closed on every exit path, and no
cursor is opened when `conn.cursor()` itself fails), exactly one
commit-or-rollback decision is taken, the connection commits exactly on body
success with the body's result returned, and on a body exception the
connection rolls back and the exception is re-raised. -/
theorem get_cursor_scope_spec (cf : Option String) (body : Except String Nat) :
    ((get_cursor_scope cf body).2.count DbEv.evCursorOpen =
      (get_cursor_scope cf body).2.count DbEv.evCursorClose) ∧
    ((get_cursor_scope cf body).2.count DbEv.evCommit +
      (get_cursor_scope cf body).2.count DbEv.evRollback = 1) ∧
    (∀ a, cf = none → body = Except.ok a →
      get_cursor_scope cf body =
        (Except.ok a, [DbEv.evCursorOpen, DbEv.evCommit, DbEv.evCursorClose])) ∧
    (∀ e, cf = none → body = Except.error e →
      get_cursor_scope cf body =
        (Except.error e, [DbEv.evCursorOpen, DbEv.evRollback, DbEv.evCursorClose])) ∧
    (∀ e, cf = some e →
      get_cursor_scope cf body = (Except.error e, [DbEv.evRollback])) := by
  refine ⟨?_, ?_, ?_, ?_, ?_⟩
  · rcases cf with _ | e0 <;> rcases body with a0 | e1 <;> rfl
  · rcases cf with _ | e0 <;> rcases body with a0 | e1 <;> rfl
  · intro a h1 h2; subst h1; subst h2; rfl
  · intro e h1 h2; subst h1; subst h2; rfl
  · intro e h1; subst h1; rfl

theorem get_cursor_scope_spec_witness :
    get_cursor_scope none (Except.ok 3) =
      (Except.ok 3, [DbEv.evCursorOpen, DbEv.evCommit, DbEv.evCursorClose]) ∧
    get_cursor_scope none (Except.error "boom") =
      (Except.error "boom", [DbEv.evCursorOpen, DbEv.evRollback, DbEv.evCursorClose]) ∧
    get_cursor_scope (some "no cursor") (Except.ok 3) =
      (Except.error "no cursor", [DbEv.evRollback]) :=
  ⟨(get_cursor_scope_spec none (Except.ok 3)).2.2.1 3 rfl rfl,
   (get_cursor_scope_spec none (Except.error "boom")).2.2.2.1 "boom" rfl rfl,
   (get_cursor_scope_spec (some "no cursor") (Except.ok 3)).2.2.2.2 "no cursor" rfl⟩

/-! ## C6: `execute_many` on an empty parameter list is a pure no-op -/

/-- C6: for every statement, `execute_many` applied to an empty parameter
sequence returns 0, leaves the helper state untouched (no connection is
acquired), and emits no store event whatsoever — no cursor, no statement
execution, no commit or rollback. -/
theorem execute_many_empty_noop (sem : String → List String → List String)
    (st : HelperState) (sql : String) :
    execute_many sem st sql [] = (0, st, []) := by
  simp [execute_many]

/-! ## C7: `ensure_table` executes the creation statement at most once -/

lemma execTrace_append (a b : List DbEv) :
    execTrace (a ++ b) = execTrace a ++ execTrace b := by
  simp [execTrace, List.filterMap_append]

lemma execTrace_get_connection (st : HelperState) :
    execTrace (get_connection st).2 = [] := by
  by_cases h : st.connOpen <;> simp [get_connection, h, execTrace]

lemma tables_get_connection (st : HelperState) :
    (get_connection st).1.tables = st.tables := by
  by_cases h : st.connOpen <;> simp [get_connection, h]

lemma execTrace_table_exists (st : HelperState) (n : String) :
    execTrace (table_exists st n).2.2 = [] := by
  by_cases h : st.connOpen <;> simp [table_exists, get_connection, h, execTrace]

lemma table_exists_fst (st : HelperState) (n : String) :
    (table_exists st n).1 = st.tables.contains n := by
  simp [table_exists, tables_get_connection]

lemma tables_table_exists (st : HelperState) (n : String) :
    (table_exists st n).2.1.tables = st.tables := by
  simp [table_exists, tables_get_connection]

lemma execTrace_execute_non_query (sem : String → List String → List String)
    (st : HelperState) (sql : String) :
    execTrace (execute_non_query sem st sql).2.2 = [sql] := by
  by_cases h : st.connOpen <;> simp [execute_non_query, get_connection, h, execTrace]

lemma tables_execute_non_query (sem : String → List String → List String)
    (st : HelperState) (sql : String) :
    (execute_non_query sem st sql).2.1.tables = sem sql st.tables := by
  simp [execute_non_query, tables_get_connection]

lemma ensure_table_skip (sem : String → List String → List String)
    (st : HelperState) (createSql n : String) (hn : n ≠ "")
    (hex : st.tables.contains n = true) :
    ensure_table sem st createSql (some n) =
      ((table_exists st n).2.1, (table_exists st n).2.2) := by
  simp only [ensure_table, Option.getD_some]
  rw [if_pos hn, if_pos (by rw [table_exists_fst]; exact hex)]

lemma ensure_table_exec (sem : String → List String → List String)
    (st : HelperState) (createSql n : String) (hn : n ≠ "")
    (hex : st.tables.contains n = false) :
    ensure_table sem st createSql (some n) =
      ((execute_non_query sem (table_exists st n).2.1 createSql).2.1,
       (table_exists st n).2.2 ++
         (execute_non_query sem (table_exists st n).2.1 createSql).2.2) := by
  simp only [ensure_table, Option.getD_some]
  rw [if_pos hn, if_neg (by rw [table_exists_fst, hex]; exact Bool.false_ne_true)]

/-- C7: with a table name given, two consecutive `ensure_table` calls for that
name execute the creation statement at most once in total (assuming the
creation statement indeed creates the named table in the catalog), and a call
that finds the table present executes no statement at all and leaves the
catalog untouched. -/
theorem ensure_table_idempotent (sem : String → List String → List String)
    (st : HelperState) (createSql n : String) (hn : n ≠ "")
    (hsem : ∀ t, n ∈ sem createSql t) :
    (execTrace (ensure_table sem st createSql (some n)).2).length +
      (execTrace (ensure_table sem
        (ensure_table sem st createSql (some n)).1 createSql (some n)).2).length ≤ 1 ∧
    (∀ st0 : HelperState, st0.tables.contains n = true →
      execTrace (ensure_table sem st0 createSql (some n)).2 = [] ∧
      (ensure_table sem st0 createSql (some n)).1.tables = st0.tables) := by
  have hskip : ∀ st0 : HelperState, st0.tables.contains n = true →
      execTrace (ensure_table sem st0 createSql (some n)).2 = [] ∧
      (ensure_table sem st0 createSql (some n)).1.tables = st0.tables := by
    intro st0 hex
    rw [ensure_table_skip sem st0 createSql n hn hex]
    exact ⟨execTrace_table_exists st0 n, tables_table_exists st0 n⟩
  refine ⟨?_, hskip⟩
  cases hex : st.tables.contains n with
  | true =>
    have h1 := hskip st hex
    have h2 := hskip (ensure_table sem st createSql (some n)).1
      (by rw [h1.2]; exact hex)
    rw [h1.1, h2.1]
    decide
  | false =>
    have h1 := ensure_table_exec sem st createSql n hn hex
    have htab : (ensure_table sem st createSql (some n)).1.tables =
        sem createSql st.tables := by
      rw [h1, tables_execute_non_query, tables_table_exists]
    have hcontains : (ensure_table sem st createSql (some n)).1.tables.contains n = true := by
      rw [htab]
      exact List.elem_eq_true_of_mem (hsem st.tables)
    have h2 := hskip (ensure_table sem st createSql (some n)).1 hcontains
    rw [h2.1]
    have : execTrace (ensure_table sem st createSql (some n)).2 = [createSql] := by
      rw [h1, execTrace_append, execTrace_table_exists, execTrace_execute_non_query]
      rfl
    rw [this]
    simp

theorem ensure_table_idempotent_witness :
    (execTrace (ensure_table (fun sql t => if sql = "CREATE TABLE users (id INT);"
        then "users" :: t else t) ⟨false, []⟩
        "CREATE TABLE users (id INT);" (some "users")).2).length +
      (execTrace (ensure_table (fun sql t => if sql = "CREATE TABLE users (id INT);"
        then "users" :: t else t)
        (ensure_table (fun sql t => if sql = "CREATE TABLE users (id INT);"
          then "users" :: t else t) ⟨false, []⟩
          "CREATE TABLE users (id INT);" (some "users")).1
        "CREATE TABLE users (id INT);" (some "users")).2).length ≤ 1 :=
  (ensure_table_idempotent
    (fun sql t => if sql = "CREATE TABLE users (id INT);" then "users" :: t else t)
    ⟨false, []⟩ "CREATE TABLE users (id INT);" "users"
    (by decide) (fun t => by simp)).1

/-! ## C8: `run_script` splitting and in-order execution -/

lemma collectGo_join (lines : List String) :
    ∀ buff, (collectGo lines buff).flatten =
      buff ++ lines.filter (fun l => !skipLine l) := by
  induction lines with
  | nil =>
    intro buff
    by_cases h : buff.isEmpty
    · rw [List.isEmpty_iff] at h
      simp [collectGo, h]
    · simp [collectGo, h]
  | cons line rest ih =>
    intro buff
    by_cases hs : skipLine line
    · simp [collectGo, hs, ih buff]
    · by_cases he : pyEndsWith (pyStrip line) ";"
      · simp [collectGo, hs, he, ih, List.append_assoc]
      · simp [collectGo, hs, he, ih (buff ++ [line]), List.append_assoc]

lemma collectGo_ne_nil (lines : List String) :
    ∀ buff, ∀ s ∈ collectGo lines buff, s ≠ [] := by
  induction lines with
  | nil =>
    intro buff s hs
    by_cases h : buff.isEmpty
    · simp [collectGo, h] at hs
    · simp only [collectGo, if_neg h, List.mem_singleton] at hs
      subst hs
      exact fun hb => h (by simp [hb])
  | cons line rest ih =>
    intro buff s hs
    cases hsk : skipLine line with
    | true =>
      exact ih buff s (by simpa [collectGo, hsk] using hs)
    | false =>
      cases he : pyEndsWith (pyStrip line) ";" with
      | true =>
        simp only [collectGo, hsk, he, Bool.false_eq_true, if_false, if_true,
          List.mem_cons] at hs
        rcases hs with hs | hs
        · subst hs; simp
        · exact ih [] s hs
      | false =>
        exact ih (buff ++ [line]) s (by simpa [collectGo, hsk, he] using hs)

/-- Lines accumulated inside a statement — all but its last — never have a
stripped form ending in `;` (such a line would have flushed the buffer). -/
lemma collectGo_internal (lines : List String) :
    ∀ buff, (∀ l ∈ buff, pyEndsWith (pyStrip l) ";" = false) →
      ∀ s ∈ collectGo lines buff, ∀ l ∈ s.dropLast,
        pyEndsWith (pyStrip l) ";" = false := by
  induction lines with
  | nil =>
    intro buff hbuff s hs l hl
    by_cases h : buff.isEmpty
    · simp [collectGo, h] at hs
    · simp only [collectGo, if_neg h, List.mem_singleton] at hs
      subst hs
      exact hbuff l (List.dropLast_subset _ hl)
  | cons line rest ih =>
    intro buff hbuff s hs l hl
    cases hsk : skipLine line with
    | true =>
      exact ih buff hbuff s (by simpa [collectGo, hsk] using hs) l hl
    | false =>
      cases he : pyEndsWith (pyStrip line) ";" with
      | true =>
        simp only [collectGo, hsk, he, Bool.false_eq_true, if_false, if_true,
          List.mem_cons] at hs
        rcases hs with hs | hs
        · subst hs
          rw [List.dropLast_concat] at hl
          exact hbuff l hl
        · exact ih [] (by simp) s hs l hl
      | false =>
        refine ih (buff ++ [line]) ?_ s (by simpa [collectGo, hsk, he] using hs) l hl
        intro x hx
        rcases List.mem_append.1 hx with hx | hx
        · exact hbuff x hx
        · rw [List.mem_singleton.1 hx]
          exact he

/-- Every produced statement except possibly the last ends — on its last
line, stripped — with `;`: statements are flushed at semicolon lines, the
only exception being the trailing buffer. -/
lemma collectGo_dropLast_semi (lines : List String) :
    ∀ buff, ∀ s ∈ (collectGo lines buff).dropLast,
      pyEndsWith (pyStrip (s.getLastD "")) ";" = true := by
  induction lines with
  | nil =>
    intro buff s hs
    by_cases h : buff.isEmpty
    · simp [collectGo, h] at hs
    · simp only [collectGo, if_neg h, List.dropLast_single] at hs
      simp at hs
  | cons line rest ih =>
    intro buff s hs
    cases hsk : skipLine line with
    | true =>
      exact ih buff s (by simpa [collectGo, hsk] using hs)
    | false =>
      cases he : pyEndsWith (pyStrip line) ";" with
      | true =>
        simp only [collectGo, hsk, he, Bool.false_eq_true, if_false, if_true] at hs
        cases hrest : collectGo rest [] with
        | nil => rw [hrest] at hs; simp at hs
        | cons b L =>
          rw [hrest] at hs
          simp only [List.dropLast_cons₂, List.mem_cons] at hs
          rcases hs with hs | hs
          · subst hs
            rw [List.getLastD_concat]
            exact he
          · exact ih [] s (by rw [hrest]; exact hs)
      | false =>
        exact ih (buff ++ [line]) s (by simpa [collectGo, hsk, he] using hs)

lemma runStmtList_execTrace (sem : String → List String → List String) :
    ∀ (stmts : List String) (st : HelperState),
      execTrace (runStmtList sem st stmts).2 = stmts := by
  intro stmts
  induction stmts with
  | nil => intro st; rfl
  | cons s rest ih =>
    intro st
    simp only [runStmtList, execTrace_append, execTrace_execute_non_query, ih]
    rfl

/-- C8: `collectGo` (the statement-accumulation loop of `run_script`)
partitions the script's lines: concatenating the produced statements yields
exactly the non-skipped lines in their original order (blank lines and lines
starting with `--` or `#` are the skipped ones); every statement is non-empty;
within a statement only the last line can end with a semicolon; every
statement but possibly the final one ends with a semicolon line; and
`run_script` executes exactly the statement list, in order of appearance. -/
theorem run_script_partition (lines : List String) :
    ((collectGo lines []).flatten = lines.filter (fun l => !skipLine l)) ∧
    (∀ s ∈ collectGo lines [], s ≠ []) ∧
    (∀ s ∈ collectGo lines [], ∀ l ∈ s.dropLast,
      pyEndsWith (pyStrip l) ";" = false) ∧
    (∀ s ∈ (collectGo lines []).dropLast,
      pyEndsWith (pyStrip (s.getLastD "")) ";" = true) ∧
    (∀ sem st sqlText, execTrace (run_script sem st sqlText).2 =
      run_script_statements sqlText) :=
  ⟨by simpa using collectGo_join lines [],
   collectGo_ne_nil lines [],
   collectGo_internal lines [] (by simp),
   collectGo_dropLast_semi lines [],
   fun sem st sqlText => runStmtList_execTrace sem (run_script_statements sqlText) st⟩

theorem run_script_partition_witness :
    ((collectGo ["CREATE TABLE a (", "  x INT", ");", "-- note", "",
        "INSERT INTO a VALUES (1);", "SELECT 1"] []).flatten =
      ["CREATE TABLE a (", "  x INT", ");", "INSERT INTO a VALUES (1);",
        "SELECT 1"]) ∧
    ((["CREATE TABLE a (", "  x INT", ");"] : List String) ≠ []) ∧
    pyEndsWith (pyStrip "  x INT") ";" = false ∧
    pyEndsWith (pyStrip ((["CREATE TABLE a (", "  x INT", ");"] :
      List String).getLastD "")) ";" = true ∧
    execTrace (run_script (fun _ t => t) ⟨false, []⟩ "a;\nb;").2 =
      run_script_statements "a;\nb;" := by
  have h := run_script_partition ["CREATE TABLE a (", "  x INT", ");", "-- note",
    "", "INSERT INTO a VALUES (1);", "SELECT 1"]
  refine ⟨by rw [h.1]; decide, h.2.1 _ (by decide), ?_, h.2.2.2.1 _ (by decide),
    h.2.2.2.2 (fun _ t => t) ⟨false, []⟩ "a;\nb;"⟩
  have h3 := h.2.2.1 ["CREATE TABLE a (", "  x INT", ");"] (by decide)
    "  x INT" (by decide)
  exact h3
